import Mathlib

/-
Verification of the session-paired streaming relay in src/main.py.

Modelling conventions (shallow embedding):
- A websocket handle is a Nat identifier.  Sends, closes and translation
  requests are recorded in an ordered trace of actions.
- Python exceptions are modelled with Except PyErr; an endpoint step that
  raises runs the handler's finally-block (cleanup_session) exactly as the
  source does.
- The streaming LLM call (litellm.acompletion) is abstracted by a
  StreamBehavior: the list of chunk contents it yields (None chunks allowed)
  and whether it raises after yielding them.  translate_text_streaming's
  fragment sequence is derived from it exactly as the generator in main.py
  builds it.
- Each inbound websocket message is processed as one atomic step; the two
  legs' loops interleave at message granularity.
-/

/-- A streamed translation fragment as emitted by translate_text_streaming:
the JSON object with keys token / last / type (type is always "text"). -/
structure Fragment where
  token : String
  last : Bool
deriving DecidableEq, Repr

/-- Outbound JSON messages produced by the relay (send_json payloads). -/
inductive OutMsg where
  | textFragment (f : Fragment)
  | play (source : String) (loop : Nat) (preemptible : Bool) (interruptible : Bool)
  | endMsg (handoffData : String)
deriving DecidableEq, Repr

/-- Observable actions of the relay, recorded in emission order:
a send_json attempt on a handle, a close attempt on a handle, and the
issuing of a streaming translation request. -/
inductive RelayAction where
  | send (ws : Nat) (m : OutMsg)
  | close (ws : Nat)
  | translate (text : String) (srcLang : String) (tgtLang : String)
deriving DecidableEq, Repr

/-- Python exceptions that the modelled code can raise. -/
inductive PyErr where
  | jsonDecodeError
  | keyError
  | attributeError
  | sendError
  | closeError
  | upstreamError
deriving DecidableEq, Repr

deriving instance DecidableEq for Except

/-- The TranslationSession record of main.py (websocket handles as Nats). -/
structure TranslationSession where
  session_id : String
  source_call_sid : String
  target_call_sid : Option String := none
  source_websocket : Option Nat := none
  target_websocket : Option Nat := none
  source_phone_number : Option String := none
  target_phone_number : Option String := none
  source_language : String := ""
  target_language : String := ""
  source_tts_provider : String := "ElevenLabs"
  source_voice : String := ""
  target_tts_provider : String := "ElevenLabs"
  target_voice : String := ""
  host : Option String := none
deriving DecidableEq, Repr

/-- Global state: the translation_sessions dict plus the action trace. -/
structure World where
  translation_sessions : List (String × TranslationSession)
  trace : List RelayAction
deriving DecidableEq, Repr

/-- Dict lookup: translation_sessions[sid] if present. -/
def lookupSession (r : List (String × TranslationSession)) (sid : String) :
    Option TranslationSession :=
  (r.find? (fun p => p.1 == sid)).map (fun p => p.2)

/-- Dict update of an existing key (mutation of the stored session object). -/
def setSession (r : List (String × TranslationSession)) (sid : String)
    (s : TranslationSession) : List (String × TranslationSession) :=
  r.map (fun p => if p.1 == sid then (sid, s) else p)

/-- Dict pop: translation_sessions.pop(sid, None). -/
def popSession (r : List (String × TranslationSession)) (sid : String) :
    List (String × TranslationSession) :=
  r.filter (fun p => !(p.1 == sid))

/-- Dict insert: translation_sessions[sid] = s (new or overwriting). -/
def insertSession (r : List (String × TranslationSession)) (sid : String)
    (s : TranslationSession) : List (String × TranslationSession) :=
  if r.any (fun p => p.1 == sid) then setSession r sid s else r ++ [(sid, s)]

/-- Behaviour of one streaming LLM call: the delta contents of the chunks it
yields (none models a chunk whose content is None) and whether it raises
after yielding them (raising with chunks = [] models a call-time failure
such as an unreachable service). -/
structure StreamBehavior where
  chunks : List (Option String)
  fails : Bool

/-- The non-final fragments translate_text_streaming yields: one fragment
with last = false per chunk whose content is not None. -/
def llmFragments (chunks : List (Option String)) : List Fragment :=
  chunks.filterMap (fun c => c.map (fun t => { token := t, last := false }))

/-- The full fragment sequence of a successful translate_text_streaming run:
the per-chunk fragments followed by the terminal empty fragment with
last = true. -/
def translate_text_streaming (chunks : List (Option String)) : List Fragment :=
  llmFragments chunks ++ [{ token := "", last := true }]

/-- Fragments actually yielded by a run together with whether the generator
raises after yielding them (a failing stream never reaches the terminal
yield). -/
def streamEvents (b : StreamBehavior) : List Fragment × Bool :=
  if b.fails then (llmFragments b.chunks, true)
  else (translate_text_streaming b.chunks, false)

/-- Concatenation of the token fields, as the endpoints accumulate them. -/
def joinTokens (fs : List Fragment) : String :=
  fs.foldl (fun acc f => acc ++ f.token) ""

/-- Environment for one endpoint step: which handles' send_json / close
calls raise, and the behaviour of the streaming translation calls the step
may issue (one for a prompt, two for the readiness ready-messages). -/
structure StepEnv where
  sendFail : Nat → Bool
  closeFail : Nat → Bool
  stream : StreamBehavior
  readyStreamSource : StreamBehavior
  readyStreamTarget : StreamBehavior

/-- await ows.send_json(m): raises AttributeError when the handle is None
(the Python field holds None); otherwise the attempt is recorded and raises
when the environment makes this handle's send fail. -/
def attrSendJson (sf : Nat → Bool) (ows : Option Nat) (m : OutMsg) (w : World) :
    Except PyErr Unit × World :=
  match ows with
  | none => (.error .attributeError, w)
  | some ws =>
    let w1 := { w with trace := w.trace ++ [RelayAction.send ws m] }
    if sf ws then (.error .sendError, w1) else (.ok (), w1)

/-- await ws.close(): the attempt is recorded; raises when the environment
makes this handle's close fail. -/
def closeWs (cf : Nat → Bool) (ws : Nat) (w : World) : Except PyErr Unit × World :=
  let w1 := { w with trace := w.trace ++ [RelayAction.close ws] }
  if cf ws then (.error .closeError, w1) else (.ok (), w1)

/-- The wait-music URL constant of main.py. -/
def wait_url : String :=
  "https://pub-09065925c50a4711a49096e7dbee29ce.r2.dev/mixkit-marimba-ringtone-1359.wav"

/-- The hold-music URL constant of main.py. -/
def music_url : String :=
  "https://pub-09065925c50a4711a49096e7dbee29ce.r2.dev/arcade-melody-295434.mp3"

/-- The wait_event payload built in check_session_readiness_and_notify. -/
def wait_event : OutMsg := .play wait_url 0 true false

/-- The music_event payload built in the prompt branches. -/
def music_event : OutMsg := .play music_url 0 true true

/-- The end_message payload built in cleanup_session. -/
def end_message : OutMsg := .endMsg "clean up session"

/-- The fixed neutral-language ready template. -/
def readyText : String := "You are ready to talk."

/-- One readiness ready-message translation: issues the streaming request and
accumulates the tokens; raises if the stream fails. -/
def runReadyTranslation (b : StreamBehavior) (text srcLang tgtLang : String)
    (w : World) : Except PyErr String × World :=
  let w1 := { w with trace := w.trace ++ [RelayAction.translate text srcLang tgtLang] }
  if b.fails then (.error .upstreamError, w1)
  else (.ok (joinTokens (translate_text_streaming b.chunks)), w1)

/-- check_session_readiness_and_notify of main.py.  When a handle is missing
it sends wait_event under "if session.source_websocket" and, under
"if session.target_websocket", again through session.source_websocket (the
source, exactly as written in main.py), then returns False.  When both
handles are live it translates the ready template into each language and
sends the accumulated text as a final text message to each leg, returning
True. -/
def check_session_readiness_and_notify (env : StepEnv) (session : TranslationSession)
    (w : World) : Except PyErr Bool × World :=
  if !(session.source_websocket.isSome && session.target_websocket.isSome) then
    match (if session.source_websocket.isSome then
            attrSendJson env.sendFail session.source_websocket wait_event w
           else (.ok (), w)) with
    | (.error e, w1) => (.error e, w1)
    | (.ok _, w1) =>
      match (if session.target_websocket.isSome then
              attrSendJson env.sendFail session.source_websocket wait_event w1
             else (.ok (), w1)) with
      | (.error e, w2) => (.error e, w2)
      | (.ok _, w2) => (.ok false, w2)
  else
    match runReadyTranslation env.readyStreamSource readyText "en-US"
        session.source_language w with
    | (.error e, w1) => (.error e, w1)
    | (.ok sourceReadyText, w1) =>
      match attrSendJson env.sendFail session.source_websocket
          (.textFragment { token := sourceReadyText, last := true }) w1 with
      | (.error e, w2) => (.error e, w2)
      | (.ok _, w2) =>
        match runReadyTranslation env.readyStreamTarget readyText "en-US"
            session.target_language w2 with
        | (.error e, w3) => (.error e, w3)
        | (.ok targetReadyText, w3) =>
          match attrSendJson env.sendFail session.target_websocket
              (.textFragment { token := targetReadyText, last := true }) w3 with
          | (.error e, w4) => (.error e, w4)
          | (.ok _, w4) => (.ok true, w4)

/-- One leg's try/except/finally block inside cleanup_session: if the handle
is set, send the end message and, only if that send returned normally,
close the handle; any exception is caught and logged. -/
def cleanupLeg (env : StepEnv) (ows : Option Nat) (w : World) : World :=
  match ows with
  | none => w
  | some ws =>
    match attrSendJson env.sendFail (some ws) end_message w with
    | (.error _, w1) => w1
    | (.ok _, w1) =>
      match closeWs env.closeFail ws w1 with
      | (_, w2) => w2

/-- cleanup_session of main.py: a no-op when the session id is absent;
otherwise best-effort end/close on each leg (exceptions swallowed), the
finally-blocks null both handle fields, and the entry is popped. -/
def cleanup_session (env : StepEnv) (sid : String) (w : World) : World :=
  match lookupSession w.translation_sessions sid with
  | none => w
  | some session =>
    let w1 := cleanupLeg env session.source_websocket w
    let w2 := cleanupLeg env session.target_websocket w1
    let session1 := { session with source_websocket := none, target_websocket := none }
    let w3 := { w2 with translation_sessions := setSession w2.translation_sessions sid session1 }
    { w3 with translation_sessions := popSession w3.translation_sessions sid }

/-- The forwarding loop of the prompt branches: each yielded fragment is
sent to the counterpart handle in order; a failing send raises out of the
loop. -/
def forwardFragments (sf : Nat → Bool) (tws : Nat) :
    List Fragment → World → Except PyErr Unit × World
  | [], w => (.ok (), w)
  | f :: fs, w =>
    match attrSendJson sf (some tws) (.textFragment f) w with
    | (.ok _, w1) => forwardFragments sf tws fs w1
    | (.error e, w1) => (.error e, w1)

/-- The prompt branch of source_websocket_endpoint: skip if the session id is
unknown or the target handle is missing; otherwise issue the translation
request, forward every yielded fragment to the target handle in order (a
mid-stream failure raises after the yielded fragments were forwarded), then
send music_event through the source handle. -/
def handlePrompt_source (env : StepEnv) (sid : String) (promptText : String)
    (w : World) : Except PyErr Unit × World :=
  match lookupSession w.translation_sessions sid with
  | none => (.ok (), w)
  | some session =>
    match session.target_websocket with
    | none => (.ok (), w)
    | some tws =>
      let w1 := { w with trace := w.trace ++
        [RelayAction.translate promptText session.source_language session.target_language] }
      match forwardFragments env.sendFail tws (streamEvents env.stream).1 w1 with
      | (.error e, w2) => (.error e, w2)
      | (.ok _, w2) =>
        if (streamEvents env.stream).2 then (.error .upstreamError, w2)
        else attrSendJson env.sendFail session.source_websocket music_event w2

/-- The prompt branch of target_websocket_endpoint (mirror image): skip if
the session id is unknown or the source handle is missing; otherwise
translate target to source, forward to the source handle, then send
music_event through the target handle. -/
def handlePrompt_target (env : StepEnv) (sid : String) (promptText : String)
    (w : World) : Except PyErr Unit × World :=
  match lookupSession w.translation_sessions sid with
  | none => (.ok (), w)
  | some session =>
    match session.source_websocket with
    | none => (.ok (), w)
    | some sws =>
      let w1 := { w with trace := w.trace ++
        [RelayAction.translate promptText session.target_language session.source_language] }
      match forwardFragments env.sendFail sws (streamEvents env.stream).1 w1 with
      | (.error e, w2) => (.error e, w2)
      | (.ok _, w2) =>
        if (streamEvents env.stream).2 then (.error .upstreamError, w2)
        else attrSendJson env.sendFail session.target_websocket music_event w2

/-- The setup branch of source_websocket_endpoint: message["callSid"] raises
KeyError when absent; if the session id is registered the source handle is
overwritten with this connection's handle and the readiness check runs. -/
def handleSetup_source (env : StepEnv) (sid : String) (ws : Nat)
    (callSid : Option String) (w : World) : Except PyErr Unit × World :=
  match callSid with
  | none => (.error .keyError, w)
  | some _ =>
    match lookupSession w.translation_sessions sid with
    | none => (.ok (), w)
    | some session =>
      let session1 := { session with source_websocket := some ws }
      let w1 := { w with translation_sessions := setSession w.translation_sessions sid session1 }
      match check_session_readiness_and_notify env session1 w1 with
      | (.error e, w2) => (.error e, w2)
      | (.ok _, w2) => (.ok (), w2)

/-- The setup branch of target_websocket_endpoint: additionally records the
call sid on the session before overwriting the target handle. -/
def handleSetup_target (env : StepEnv) (sid : String) (ws : Nat)
    (callSid : Option String) (w : World) : Except PyErr Unit × World :=
  match callSid with
  | none => (.error .keyError, w)
  | some cs =>
    match lookupSession w.translation_sessions sid with
    | none => (.ok (), w)
    | some session =>
      let session1 := { session with target_call_sid := some cs,
                                     target_websocket := some ws }
      let w1 := { w with translation_sessions := setSession w.translation_sessions sid session1 }
      match check_session_readiness_and_notify env session1 w1 with
      | (.error e, w2) => (.error e, w2)
      | (.ok _, w2) => (.ok (), w2)

/-- One inbound websocket text frame as the endpoints see it after
json.loads: invalid JSON, JSON without a "type" key, a setup possibly
missing "callSid", a prompt possibly missing "voicePrompt", the logged-only
kinds, or an unrecognized type string. -/
inductive RawMsg where
  | invalid
  | noType
  | setup (callSid : Option String)
  | prompt (voicePrompt : Option String)
  | info
  | interrupt
  | errorEvent
  | other (t : String)
deriving DecidableEq, Repr

/-- The body of source_websocket_endpoint's loop for one message (before the
surrounding try/except): malformed input raises, recognized kinds dispatch,
info / interrupt / error and unknown kinds only log. -/
def source_ws_message (env : StepEnv) (sid : String) (ws : Nat) (raw : RawMsg)
    (w : World) : Except PyErr Unit × World :=
  match raw with
  | .invalid => (.error .jsonDecodeError, w)
  | .noType => (.error .keyError, w)
  | .setup callSid => handleSetup_source env sid ws callSid w
  | .prompt none => (.error .keyError, w)
  | .prompt (some p) => handlePrompt_source env sid p w
  | .info => (.ok (), w)
  | .interrupt => (.ok (), w)
  | .errorEvent => (.ok (), w)
  | .other _ => (.ok (), w)

/-- The body of target_websocket_endpoint's loop for one message. -/
def target_ws_message (env : StepEnv) (sid : String) (ws : Nat) (raw : RawMsg)
    (w : World) : Except PyErr Unit × World :=
  match raw with
  | .invalid => (.error .jsonDecodeError, w)
  | .noType => (.error .keyError, w)
  | .setup callSid => handleSetup_target env sid ws callSid w
  | .prompt none => (.error .keyError, w)
  | .prompt (some p) => handlePrompt_target env sid p w
  | .info => (.ok (), w)
  | .interrupt => (.ok (), w)
  | .errorEvent => (.ok (), w)
  | .other _ => (.ok (), w)

/-- One message-granularity step of source_websocket_endpoint: if the body
raises, the except-block logs and the finally-block runs cleanup_session and
the connection's loop ends (Bool: the loop continues). -/
def source_websocket_endpoint_step (env : StepEnv) (sid : String) (ws : Nat)
    (raw : RawMsg) (w : World) : Bool × World :=
  match source_ws_message env sid ws raw w with
  | (.ok _, w1) => (true, w1)
  | (.error _, w1) => (false, cleanup_session env sid w1)

/-- One message-granularity step of target_websocket_endpoint. -/
def target_websocket_endpoint_step (env : StepEnv) (sid : String) (ws : Nat)
    (raw : RawMsg) (w : World) : Bool × World :=
  match target_ws_message env sid ws raw w with
  | (.ok _, w1) => (true, w1)
  | (.error _, w1) => (false, cleanup_session env sid w1)

/-- Session creation in the initiate-call endpoint: a fresh
TranslationSession(session_id, "") with the form's configuration, stored in
the registry; no handle is attached yet. -/
def initiate_call_session (sid from_number to_number source_language
    target_language source_tts_provider source_voice target_tts_provider
    target_voice : String) (host : Option String) (w : World) : World :=
  let session : TranslationSession :=
    { session_id := sid, source_call_sid := "",
      source_phone_number := some from_number,
      target_phone_number := some to_number,
      source_language := source_language, target_language := target_language,
      source_tts_provider := source_tts_provider, source_voice := source_voice,
      target_tts_provider := target_tts_provider, target_voice := target_voice,
      host := host }
  { w with translation_sessions := insertSession w.translation_sessions sid session }

/-- System events: session creation via the initiate-call form, or one
inbound message on a source or target websocket connection (the connection's
handle and the step's environment travel with the event). -/
inductive Ev where
  | initiate (sid from_number to_number source_language target_language : String)
  | sourceMsg (env : StepEnv) (sid : String) (ws : Nat) (raw : RawMsg)
  | targetMsg (env : StepEnv) (sid : String) (ws : Nat) (raw : RawMsg)

/-- One step of the whole system at message granularity. -/
def stepSys (w : World) : Ev → World
  | .initiate sid f t sl tl =>
    initiate_call_session sid f t sl tl "ElevenLabs" "" "ElevenLabs" "" none w
  | .sourceMsg env sid ws raw => (source_websocket_endpoint_step env sid ws raw w).2
  | .targetMsg env sid ws raw => (target_websocket_endpoint_step env sid ws raw w).2

/-- Run a script of system events from a world. -/
def runScript (w : World) (evs : List Ev) : World := evs.foldl stepSys w

/-- The empty initial world: no sessions, no actions. -/
def initialWorld : World := { translation_sessions := [], trace := [] }

/-- An all-succeeding environment with a given prompt-translation stream. -/
def okEnv (b : StreamBehavior) : StepEnv :=
  { sendFail := fun _ => false, closeFail := fun _ => false,
    stream := b,
    readyStreamSource := { chunks := [], fails := false },
    readyStreamTarget := { chunks := [], fails := false } }

/-- Concrete stream for witnesses: two content chunks around a None chunk. -/
def c1Stream : StreamBehavior := { chunks := [some "Hal", none, some "lo"], fails := false }

/-- All-succeeding environment with the c1Stream prompt translation. -/
def c1Env : StepEnv := okEnv c1Stream

/-- A fully attached session used by the witnesses. -/
def c1Session : TranslationSession :=
  { session_id := "s1", source_call_sid := "", source_websocket := some 1,
    target_websocket := some 2, source_language := "en-US", target_language := "de-DE" }

/-- World holding c1Session under its id with an empty trace. -/
def c1World : World := { translation_sessions := [("s1", c1Session)], trace := [] }

/-- Environment whose every send and close raises (worst-case teardown). -/
def failEnv : StepEnv :=
  { sendFail := fun _ => true, closeFail := fun _ => true,
    stream := { chunks := [], fails := false },
    readyStreamSource := { chunks := [], fails := false },
    readyStreamTarget := { chunks := [], fails := false } }

/-- Environment where exactly handle 1's send raises. -/
def c8Env : StepEnv :=
  { failEnv with sendFail := fun n => n == 1, closeFail := fun _ => false }

/-- Prompt-translation stream yielding the single chunk "Hallo". -/
def c2Stream : StreamBehavior := { chunks := [some "Hallo"], fails := false }

/-- Script: create session s2, then the source leg attaches with setup. -/
def c2Script : List Ev :=
  [Ev.initiate "s2" "+15550001" "+15550002" "en-US" "de-DE",
   Ev.sourceMsg (okEnv c2Stream) "s2" 1 (RawMsg.setup (some "CA1"))]

/-- World after c2Script: session s2 has a live source handle 1 and no
target handle. -/
def c2World : World := runScript initialWorld c2Script

/-- The session record stored in c2World. -/
def c2AttachedSession : TranslationSession :=
  { session_id := "s2", source_call_sid := "", source_websocket := some 1,
    source_phone_number := some "+15550001", target_phone_number := some "+15550002",
    source_language := "en-US", target_language := "de-DE" }

/-- World with session s2 created and no leg attached yet. -/
def c2FreshWorld : World :=
  stepSys initialWorld (Ev.initiate "s2" "+15550001" "+15550002" "en-US" "de-DE")

/-- The freshly created session record stored in c2FreshWorld. -/
def c2FreshSession : TranslationSession :=
  { session_id := "s2", source_call_sid := "",
    source_phone_number := some "+15550001", target_phone_number := some "+15550002",
    source_language := "en-US", target_language := "de-DE" }

/-- Environment whose prompt translation fails after one chunk. -/
def c3Env : StepEnv := okEnv { chunks := [some "Hal"], fails := true }

/-- A session where only the target leg is live (handle 2). -/
def c5TargetOnly : TranslationSession :=
  { session_id := "s5", source_call_sid := "", target_websocket := some 2,
    source_language := "en-US", target_language := "de-DE" }

/-- A session where only the source leg is live (handle 1). -/
def c5SourceOnly : TranslationSession :=
  { session_id := "s5", source_call_sid := "", source_websocket := some 1,
    source_language := "en-US", target_language := "de-DE" }

/-- A session with a live source handle 1 and no target, used for teardown
counterexamples. -/
def c8Session : TranslationSession :=
  { session_id := "s8", source_call_sid := "", source_websocket := some 1 }

/-- World holding c8Session under its id. -/
def c8World : World := { translation_sessions := [("s8", c8Session)], trace := [] }

theorem lookupSession_popSession (r : List (String × TranslationSession)) (sid : String) :
    lookupSession (popSession r sid) sid = none := by
  unfold lookupSession popSession
  rw [List.find?_eq_none.mpr]
  · rfl
  · intro x hx
    simpa using (List.mem_filter.mp hx).2

theorem cleanup_session_noop (env : StepEnv) (sid : String) (w : World)
    (h : lookupSession w.translation_sessions sid = none) :
    cleanup_session env sid w = w := by
  unfold cleanup_session
  rw [h]

theorem cleanup_session_removes (env : StepEnv) (sid : String) (w : World) :
    lookupSession (cleanup_session env sid w).translation_sessions sid = none := by
  unfold cleanup_session
  cases h : lookupSession w.translation_sessions sid with
  | none => exact h
  | some s => exact lookupSession_popSession _ sid

theorem forwardFragments_ok (sf : Nat → Bool) (tws : Nat) (h : sf tws = false)
    (fs : List Fragment) : ∀ w : World,
    forwardFragments sf tws fs w =
      (Except.ok (), { w with trace := w.trace ++ fs.map (fun f => RelayAction.send tws (OutMsg.textFragment f)) }) := by
  induction fs with
  | nil => intro w; simp [forwardFragments]
  | cons f fs ih =>
    intro w
    simp [forwardFragments, attrSendJson, h, ih, List.append_assoc]

/-- C1: a successful translation invocation yields finitely many fragments,
zero or more with last = false followed by exactly one terminal fragment
with last = true and empty text, and a relayed utterance forwards every
fragment, terminal included, to the counterpart handle unchanged and in
emission order. -/
theorem C1_stream_contract_and_forwarding
    (env : StepEnv) (hb : env.stream.fails = false)
    (hsend : ∀ n, env.sendFail n = false)
    (sid promptText : String) (w : World) (session : TranslationSession)
    (sws tws : Nat)
    (hs : lookupSession w.translation_sessions sid = some session)
    (hsw : session.source_websocket = some sws)
    (htw : session.target_websocket = some tws) :
    (∃ pre, (streamEvents env.stream).1 = pre ++ [{ token := "", last := true }] ∧
       ∀ f ∈ pre, f.last = false) ∧
    (handlePrompt_source env sid promptText w).1 = Except.ok () ∧
    (handlePrompt_source env sid promptText w).2 =
      { w with trace := w.trace ++ [RelayAction.translate promptText session.source_language session.target_language] ++ (streamEvents env.stream).1.map (fun f => RelayAction.send tws (OutMsg.textFragment f)) ++ [RelayAction.send sws music_event] } := by
  refine ⟨⟨llmFragments env.stream.chunks, ?_, ?_⟩, ?_⟩
  · simp [streamEvents, hb, translate_text_streaming]
  · intro f hf
    rw [llmFragments, List.mem_filterMap] at hf
    obtain ⟨c, _, hc⟩ := hf
    cases c with
    | none => simp at hc
    | some t =>
      simp only [Option.map_some'] at hc
      rw [← Option.some.inj hc]
  · simp only [handlePrompt_source, hs, htw, hsw,
      forwardFragments_ok env.sendFail tws (hsend tws), streamEvents, hb,
      attrSendJson, hsend, Bool.false_eq_true, if_false]
    simp [List.append_assoc]

theorem C1_stream_contract_and_forwarding_witness :
    (∃ pre, (streamEvents c1Env.stream).1 = pre ++ [{ token := "", last := true }] ∧
       ∀ f ∈ pre, f.last = false) ∧
    (handlePrompt_source c1Env "s1" "hello" c1World).1 = Except.ok () ∧
    (handlePrompt_source c1Env "s1" "hello" c1World).2 =
      { c1World with trace := c1World.trace ++ [RelayAction.translate "hello" c1Session.source_language c1Session.target_language] ++ (streamEvents c1Env.stream).1.map (fun f => RelayAction.send 2 (OutMsg.textFragment f)) ++ [RelayAction.send 1 music_event] } :=
  C1_stream_contract_and_forwarding c1Env rfl (fun _ => rfl) "s1" "hello" c1World
    c1Session 1 2 rfl rfl rfl

theorem popSession_setSession (r : List (String × TranslationSession)) (sid : String)
    (s : TranslationSession) :
    popSession (setSession r sid s) sid = popSession r sid := by
  induction r with
  | nil => rfl
  | cons p r ih =>
    by_cases h : p.1 = sid
    · simpa [setSession, popSession, List.filter_cons, h] using ih
    · simpa [setSession, popSession, List.filter_cons, h] using ih

theorem cleanup_session_live_ok (env : StepEnv) (sid : String) (w : World)
    (session : TranslationSession) (ws1 ws2 : Nat)
    (hs : lookupSession w.translation_sessions sid = some session)
    (hsw : session.source_websocket = some ws1)
    (htw : session.target_websocket = some ws2)
    (h1 : env.sendFail ws1 = false) (h2 : env.sendFail ws2 = false)
    (h3 : env.closeFail ws1 = false) (h4 : env.closeFail ws2 = false) :
    cleanup_session env sid w = { w with translation_sessions := popSession w.translation_sessions sid, trace := w.trace ++ [RelayAction.send ws1 end_message, RelayAction.close ws1, RelayAction.send ws2 end_message, RelayAction.close ws2] } := by
  simp [cleanup_session, hs, cleanupLeg, hsw, htw, attrSendJson, closeWs,
    h1, h2, h3, h4, popSession_setSession, List.append_assoc]

theorem handlePrompt_source_happy
    (env : StepEnv) (hb : env.stream.fails = false)
    (hsend : ∀ n, env.sendFail n = false)
    (sid promptText : String) (w : World) (session : TranslationSession)
    (sws tws : Nat)
    (hs : lookupSession w.translation_sessions sid = some session)
    (hsw : session.source_websocket = some sws)
    (htw : session.target_websocket = some tws) :
    handlePrompt_source env sid promptText w =
      (Except.ok (), { w with trace := w.trace ++ [RelayAction.translate promptText session.source_language session.target_language] ++ (translate_text_streaming env.stream.chunks).map (fun f => RelayAction.send tws (OutMsg.textFragment f)) ++ [RelayAction.send sws music_event] }) := by
  simp only [handlePrompt_source, hs, htw, hsw,
    forwardFragments_ok env.sendFail tws (hsend tws), streamEvents, hb,
    attrSendJson, hsend, Bool.false_eq_true, if_false]

theorem handlePrompt_source_fails
    (env : StepEnv) (hf : env.stream.fails = true)
    (sid p : String) (w : World) (session : TranslationSession) (tws : Nat)
    (hs : lookupSession w.translation_sessions sid = some session)
    (htw : session.target_websocket = some tws) :
    ∃ e w2, handlePrompt_source env sid p w = (Except.error e, w2) := by
  simp only [handlePrompt_source, hs, htw]
  rcases hfw : forwardFragments env.sendFail tws (streamEvents env.stream).1 { w with trace := w.trace ++ [RelayAction.translate p session.source_language session.target_language] } with ⟨res, w2⟩
  cases res with
  | error e => exact ⟨e, w2, rfl⟩
  | ok u =>
    refine ⟨PyErr.upstreamError, w2, ?_⟩
    simp [streamEvents, hf]

/-- C2 refutation: after creating session s2 and attaching only the source
leg (handle 1), the session has no target handle, yet a prompt arriving on
the target endpoint is translated and its textFragments are sent to the
source leg — a textFragment is sent before the session has both handles
live. -/
theorem C2_counterexample :
    lookupSession c2World.translation_sessions "s2" = some c2AttachedSession ∧
    c2AttachedSession.target_websocket = none ∧
    RelayAction.send 1 (OutMsg.textFragment { token := "Hallo", last := false }) ∈
      (stepSys c2World (Ev.targetMsg (okEnv c2Stream) "s2" 2 (RawMsg.prompt (some "hello")))).trace := by
  decide

/-- C2 amended: a prompt event received on a leg while the counterpart leg
has no live handle is discarded without invoking translation — no
translation request is issued, nothing is sent and the state is unchanged,
on both endpoints.  The original claim's second half does not hold: a
prompt on a leg whose own handle is not attached while the counterpart is
live is still translated and forwarded (see the refutation). -/
theorem C2_amended_discard_when_counterpart_missing
    (env : StepEnv) (sid p : String) (w : World) (session : TranslationSession)
    (hs : lookupSession w.translation_sessions sid = some session) :
    (session.target_websocket = none → handlePrompt_source env sid p w = (Except.ok (), w)) ∧
    (session.source_websocket = none → handlePrompt_target env sid p w = (Except.ok (), w)) := by
  constructor
  · intro h
    simp [handlePrompt_source, hs, h]
  · intro h
    simp [handlePrompt_target, hs, h]

theorem C2_amended_discard_when_counterpart_missing_witness :
    handlePrompt_source c1Env "s2" "hi" c2FreshWorld = (Except.ok (), c2FreshWorld) ∧
    handlePrompt_target c1Env "s2" "hi" c2FreshWorld = (Except.ok (), c2FreshWorld) :=
  ⟨(C2_amended_discard_when_counterpart_missing c1Env "s2" "hi" c2FreshWorld
      c2FreshSession rfl).1 rfl,
   (C2_amended_discard_when_counterpart_missing c1Env "s2" "hi" c2FreshWorld
      c2FreshSession rfl).2 rfl⟩

/-- C3 refutation: with both handles live, a prompt whose translation stream
fails does not leave the session active: the source leg's loop ends, the
end message goes out and the session is removed from the registry. -/
theorem C3_counterexample :
    (source_websocket_endpoint_step c3Env "s1" 1 (RawMsg.prompt (some "hello")) c1World).1 = false ∧
    (source_websocket_endpoint_step c3Env "s1" 1 (RawMsg.prompt (some "hello")) c1World).2.translation_sessions = [] ∧
    RelayAction.send 1 end_message ∈
      (source_websocket_endpoint_step c3Env "s1" 1 (RawMsg.prompt (some "hello")) c1World).2.trace := by
  decide

/-- C3 amended: when the translation invocation for an utterance fails, the
exception escapes the per-leg loop: the loop ends and the finally-block
tears the whole session down, removing it from the registry, so subsequent
utterances are not translated in that session. -/
theorem C3_amended_translation_failure_tears_down
    (env : StepEnv) (hf : env.stream.fails = true)
    (sid p : String) (ws : Nat) (w : World) (session : TranslationSession) (tws : Nat)
    (hs : lookupSession w.translation_sessions sid = some session)
    (htw : session.target_websocket = some tws) :
    (source_websocket_endpoint_step env sid ws (RawMsg.prompt (some p)) w).1 = false ∧
    lookupSession (source_websocket_endpoint_step env sid ws (RawMsg.prompt (some p)) w).2.translation_sessions sid = none := by
  obtain ⟨e, w2, hE⟩ := handlePrompt_source_fails env hf sid p w session tws hs htw
  constructor
  · simp [source_websocket_endpoint_step, source_ws_message, hE]
  · simp [source_websocket_endpoint_step, source_ws_message, hE, cleanup_session_removes]

theorem C3_amended_translation_failure_tears_down_witness :
    (source_websocket_endpoint_step c3Env "s1" 3 (RawMsg.prompt (some "hello")) c1World).1 = false ∧
    lookupSession (source_websocket_endpoint_step c3Env "s1" 3 (RawMsg.prompt (some "hello")) c1World).2.translation_sessions "s1" = none :=
  C3_amended_translation_failure_tears_down c3Env rfl "s1" "hello" 3 c1World c1Session 2 rfl rfl

/-- C4 refutation: a second setup on the source leg of a fully live session
replaces handle 1 by handle 3 without handle 1 ever being closed. -/
theorem C4_counterexample :
    (lookupSession (source_websocket_endpoint_step c1Env "s1" 3 (RawMsg.setup (some "CA2")) c1World).2.translation_sessions "s1").map TranslationSession.source_websocket = some (some 3) ∧
    RelayAction.close 1 ∉ (source_websocket_endpoint_step c1Env "s1" 3 (RawMsg.setup (some "CA2")) c1World).2.trace := by
  decide

/-- C4 amended: when a setup event arrives for a leg that already has a live
handle, the session field is simply overwritten with the new handle — the
record references at most one handle per leg — but the displaced handle is
not closed: with the counterpart not yet attached, the step only sends the
wait notification through the new handle and emits no close action. -/
theorem C4_amended_replace_without_close
    (env : StepEnv) (sid cs : String) (w : World) (session : TranslationSession)
    (oldWs newWs : Nat)
    (hs : lookupSession w.translation_sessions sid = some session)
    (hsw : session.source_websocket = some oldWs)
    (htw : session.target_websocket = none)
    (hsend : env.sendFail newWs = false) :
    source_websocket_endpoint_step env sid newWs (RawMsg.setup (some cs)) w =
      (true, { w with translation_sessions := setSession w.translation_sessions sid { session with source_websocket := some newWs }, trace := w.trace ++ [RelayAction.send newWs wait_event] }) := by
  simp [source_websocket_endpoint_step, source_ws_message, handleSetup_source, hs,
    check_session_readiness_and_notify, htw, attrSendJson, hsend]

theorem C4_amended_replace_without_close_witness :
    source_websocket_endpoint_step (okEnv c2Stream) "s2" 3 (RawMsg.setup (some "CA9")) c2World =
      (true, { c2World with translation_sessions := setSession c2World.translation_sessions "s2" { c2AttachedSession with source_websocket := some 3 }, trace := c2World.trace ++ [RelayAction.send 3 wait_event] }) :=
  C4_amended_replace_without_close (okEnv c2Stream) "s2" "CA9" c2World c2AttachedSession
    1 3 rfl rfl rfl rfl

/-- C5 bug evidence: with only the target leg live, the readiness check
dereferences the absent source handle in order to deliver the target's wait
notification: it raises AttributeError, sends nothing to the target's own
handle and never reports not-ready to the caller.  With only the source leg
live it behaves as the spec describes: the wait notification goes to the
source's own handle and the check returns False without an error. -/
theorem C5_code_bug_wrong_leg_notification :
    check_session_readiness_and_notify c1Env c5TargetOnly initialWorld =
      (Except.error PyErr.attributeError, initialWorld) ∧
    check_session_readiness_and_notify c1Env c5SourceOnly initialWorld =
      (Except.ok false, { initialWorld with trace := [RelayAction.send 1 wait_event] }) := by
  decide

/-- C6 refutation: for a concrete relayed utterance the hold notification
(music_event on the source handle) is the last emitted action, after the
terminal fragment has been forwarded — not strictly before it. -/
theorem C6_counterexample :
    (handlePrompt_source c1Env "s1" "hello" c1World).2.trace =
      [RelayAction.translate "hello" "en-US" "de-DE",
       RelayAction.send 2 (OutMsg.textFragment { token := "Hal", last := false }),
       RelayAction.send 2 (OutMsg.textFragment { token := "lo", last := false }),
       RelayAction.send 2 (OutMsg.textFragment { token := "", last := true }),
       RelayAction.send 1 music_event] ∧
    (handlePrompt_source c1Env "s1" "hello" c1World).2.trace.getLast? =
      some (RelayAction.send 1 music_event) := by
  decide

/-- C6 amended: the hold notification to the originating leg is emitted
after the translation request is issued and after the terminal fragment has
been forwarded to the counterpart — it is the last action of the
utterance's processing, so it cannot block fragment forwarding, which has
already completed by then. -/
theorem C6_amended_hold_notification_is_last
    (env : StepEnv) (hb : env.stream.fails = false)
    (hsend : ∀ n, env.sendFail n = false)
    (sid p : String) (w : World) (session : TranslationSession) (sws tws : Nat)
    (hs : lookupSession w.translation_sessions sid = some session)
    (hsw : session.source_websocket = some sws)
    (htw : session.target_websocket = some tws) :
    (handlePrompt_source env sid p w).2.trace = (w.trace ++ [RelayAction.translate p session.source_language session.target_language] ++ (translate_text_streaming env.stream.chunks).map (fun f => RelayAction.send tws (OutMsg.textFragment f))) ++ [RelayAction.send sws music_event] ∧
    (translate_text_streaming env.stream.chunks).getLast? = some { token := "", last := true } := by
  constructor
  · rw [handlePrompt_source_happy env hb hsend sid p w session sws tws hs hsw htw]
  · rw [translate_text_streaming]
    exact List.getLast?_concat _

theorem C6_amended_hold_notification_is_last_witness :
    (handlePrompt_source c1Env "s1" "hello" c1World).2.trace = (c1World.trace ++ [RelayAction.translate "hello" c1Session.source_language c1Session.target_language] ++ (translate_text_streaming c1Env.stream.chunks).map (fun f => RelayAction.send 2 (OutMsg.textFragment f))) ++ [RelayAction.send 1 music_event] ∧
    (translate_text_streaming c1Env.stream.chunks).getLast? = some { token := "", last := true } :=
  C6_amended_hold_notification_is_last c1Env rfl (fun _ => rfl) "s1" "hello" c1World
    c1Session 1 2 rfl rfl rfl

/-- C7: cleanup_session is idempotent and always completes: invoking it on a
session absent from the registry is a no-op, a single invocation removes the
session from the registry (whatever send or close failures the environment
injects — they are swallowed), and a second invocation changes nothing. -/
theorem C7_cleanup_idempotent_and_total (env env2 : StepEnv) (sid : String) (w : World) :
    (lookupSession w.translation_sessions sid = none → cleanup_session env sid w = w) ∧
    lookupSession (cleanup_session env sid w).translation_sessions sid = none ∧
    cleanup_session env2 sid (cleanup_session env sid w) = cleanup_session env sid w :=
  ⟨cleanup_session_noop env sid w,
   cleanup_session_removes env sid w,
   cleanup_session_noop env2 sid _ (cleanup_session_removes env sid w)⟩

theorem C7_cleanup_idempotent_and_total_witness :
    cleanup_session failEnv "nosuch" initialWorld = initialWorld ∧
    lookupSession (cleanup_session failEnv "s1" c1World).translation_sessions "s1" = none ∧
    cleanup_session c1Env "s1" (cleanup_session failEnv "s1" c1World) =
      cleanup_session failEnv "s1" c1World :=
  ⟨(C7_cleanup_idempotent_and_total failEnv c1Env "nosuch" initialWorld).1 rfl,
   (C7_cleanup_idempotent_and_total failEnv c1Env "s1" c1World).2.1,
   (C7_cleanup_idempotent_and_total failEnv c1Env "s1" c1World).2.2⟩

/-- C8 refutation: tearing down a session whose source end-message send
raises records the send attempt but never attempts the close of that
handle. -/
theorem C8_counterexample :
    cleanup_session failEnv "s8" c8World =
      { translation_sessions := [], trace := [RelayAction.send 1 end_message] } ∧
    RelayAction.close 1 ∉ (cleanup_session failEnv "s8" c8World).trace := by
  decide

/-- C8 amended: during teardown a leg's close is attempted only when the end
message send to that handle returned normally; when the send raises, the
exception is caught and the handle is not closed, while a leg whose send
succeeds is closed; the session is removed either way. -/
theorem C8_amended_close_only_after_successful_send
    (env : StepEnv) (sid : String) (w : World) (session : TranslationSession)
    (ws1 ws2 : Nat)
    (hs : lookupSession w.translation_sessions sid = some session)
    (hsw : session.source_websocket = some ws1)
    (htw : session.target_websocket = some ws2)
    (h1 : env.sendFail ws1 = true)
    (h2 : env.sendFail ws2 = false)
    (h3 : env.closeFail ws2 = false) :
    cleanup_session env sid w = { w with translation_sessions := popSession w.translation_sessions sid, trace := w.trace ++ [RelayAction.send ws1 end_message, RelayAction.send ws2 end_message, RelayAction.close ws2] } ∧
    RelayAction.close ws1 ∉ [RelayAction.send ws1 end_message, RelayAction.send ws2 end_message, RelayAction.close ws2] := by
  have hne : ws1 ≠ ws2 := by
    intro h
    rw [h, h2] at h1
    exact Bool.noConfusion h1
  constructor
  · simp [cleanup_session, hs, cleanupLeg, hsw, htw, attrSendJson, closeWs,
      h1, h2, h3, popSession_setSession, List.append_assoc]
  · simp [hne]

theorem C8_amended_close_only_after_successful_send_witness :
    cleanup_session c8Env "s1" c1World = { c1World with translation_sessions := popSession c1World.translation_sessions "s1", trace := c1World.trace ++ [RelayAction.send 1 end_message, RelayAction.send 2 end_message, RelayAction.close 2] } ∧
    RelayAction.close 1 ∉ [RelayAction.send 1 end_message, RelayAction.send 2 end_message, RelayAction.close 2] :=
  C8_amended_close_only_after_successful_send c8Env "s1" c1World c1Session 1 2
    rfl rfl rfl rfl rfl rfl

/-- C9 refutation: a setup event for an unknown session identifier leaves
the empty registry empty on both endpoints — no session is created. -/
theorem C9_counterexample :
    (source_websocket_endpoint_step c1Env "nosuch" 1 (RawMsg.setup (some "CA1")) initialWorld).2.translation_sessions = [] ∧
    (target_websocket_endpoint_step c1Env "nosuch" 2 (RawMsg.setup (some "CA2")) initialWorld).2.translation_sessions = [] := by
  decide

/-- C9 amended: a setup event whose session identifier has no registry entry
is a complete no-op on either endpoint: no session is created, nothing is
attached, the loop continues and the world is unchanged; sessions are
created only by the initiate-call flow. -/
theorem C9_amended_setup_unknown_session_noop
    (env : StepEnv) (sid cs : String) (ws : Nat) (w : World)
    (h : lookupSession w.translation_sessions sid = none) :
    source_websocket_endpoint_step env sid ws (RawMsg.setup (some cs)) w = (true, w) ∧
    target_websocket_endpoint_step env sid ws (RawMsg.setup (some cs)) w = (true, w) := by
  constructor
  · simp [source_websocket_endpoint_step, source_ws_message, handleSetup_source, h]
  · simp [target_websocket_endpoint_step, target_ws_message, handleSetup_target, h]

theorem C9_amended_setup_unknown_session_noop_witness :
    source_websocket_endpoint_step c1Env "nosuch" 1 (RawMsg.setup (some "CA1")) initialWorld = (true, initialWorld) ∧
    target_websocket_endpoint_step c1Env "nosuch" 1 (RawMsg.setup (some "CA1")) initialWorld = (true, initialWorld) :=
  C9_amended_setup_unknown_session_noop c1Env "nosuch" "CA1" 1 initialWorld rfl

/-- C10: an inbound frame that is not valid JSON, lacks the type key, or is
a setup without callSid or a prompt without voicePrompt raises inside the
loop of either endpoint: the loop ends and the finally-block tears the whole
session down — with both handles live and a benign environment, both legs
receive the end message and are closed, and the session is removed from the
registry rather than the message being ignored. -/
theorem C10_malformed_message_raises_and_tears_down
    (env : StepEnv) (sid : String) (ws : Nat) (w : World) (raw : RawMsg)
    (session : TranslationSession) (ws1 ws2 : Nat)
    (hraw : raw = RawMsg.invalid ∨ raw = RawMsg.noType ∨ raw = RawMsg.setup none ∨ raw = RawMsg.prompt none)
    (hs : lookupSession w.translation_sessions sid = some session)
    (hsw : session.source_websocket = some ws1)
    (htw : session.target_websocket = some ws2)
    (h1 : env.sendFail ws1 = false) (h2 : env.sendFail ws2 = false)
    (h3 : env.closeFail ws1 = false) (h4 : env.closeFail ws2 = false) :
    source_websocket_endpoint_step env sid ws raw w = (false, { w with translation_sessions := popSession w.translation_sessions sid, trace := w.trace ++ [RelayAction.send ws1 end_message, RelayAction.close ws1, RelayAction.send ws2 end_message, RelayAction.close ws2] }) ∧
    target_websocket_endpoint_step env sid ws raw w = (false, { w with translation_sessions := popSession w.translation_sessions sid, trace := w.trace ++ [RelayAction.send ws1 end_message, RelayAction.close ws1, RelayAction.send ws2 end_message, RelayAction.close ws2] }) ∧
    lookupSession (source_websocket_endpoint_step env sid ws raw w).2.translation_sessions sid = none := by
  have hc := cleanup_session_live_ok env sid w session ws1 ws2 hs hsw htw h1 h2 h3 h4
  rcases hraw with rfl | rfl | rfl | rfl <;>
    exact ⟨by simp [source_websocket_endpoint_step, source_ws_message, handleSetup_source, hc],
           by simp [target_websocket_endpoint_step, target_ws_message, handleSetup_target, hc],
           by simp [source_websocket_endpoint_step, source_ws_message, handleSetup_source, hc,
                    lookupSession_popSession]⟩

theorem C10_malformed_message_raises_and_tears_down_witness :
    source_websocket_endpoint_step c1Env "s1" 9 RawMsg.invalid c1World = (false, { c1World with translation_sessions := popSession c1World.translation_sessions "s1", trace := c1World.trace ++ [RelayAction.send 1 end_message, RelayAction.close 1, RelayAction.send 2 end_message, RelayAction.close 2] }) ∧
    target_websocket_endpoint_step c1Env "s1" 9 RawMsg.invalid c1World = (false, { c1World with translation_sessions := popSession c1World.translation_sessions "s1", trace := c1World.trace ++ [RelayAction.send 1 end_message, RelayAction.close 1, RelayAction.send 2 end_message, RelayAction.close 2] }) ∧
    lookupSession (source_websocket_endpoint_step c1Env "s1" 9 RawMsg.invalid c1World).2.translation_sessions "s1" = none :=
  C10_malformed_message_raises_and_tears_down c1Env "s1" 9 c1World RawMsg.invalid
    c1Session 1 2 (Or.inl rfl) rfl rfl rfl rfl rfl rfl rfl
